import Mathlib

/-!
Verification development for the `llm-image-analyzer-mcp` repository.

The Python modules `src/llm_image_analyzer_mcp/core.py` and
`src/llm_image_analyzer_mcp/server.py` are shallowly embedded below:
pure helpers become Lean functions, the filesystem and the external
network boundaries (image preparation, the vision-model call, the OCR
endpoint) are abstracted as explicit oracle parameters, and Python
dictionaries become insertion-ordered association lists.
-/

/-- Python truthiness of a list: `beginsWith pat l` models `l[:len(pat)] == pat`,
used to build the substring test below. -/
def beginsWith [BEq α] : List α → List α → Bool
  | [], _ => true
  | _ :: _, [] => false
  | a :: as, b :: bs => a == b && beginsWith as bs

/-- Occurrence of `pat` as a contiguous subsequence of `l`; models the Python
`in` operator on strings (applied to their character lists). -/
def containsSeq [BEq α] (pat : List α) : List α → Bool
  | [] => beginsWith pat []
  | a :: rest => beginsWith pat (a :: rest) || containsSeq pat rest

/-- Truthiness of an `os.getenv` result: `None` and the empty string are falsy. -/
def truthyOpt : Option String → Bool
  | none => false
  | some s => !s.isEmpty

/-- Model of `core.py` line 251: `"gpt-5" in model_name.lower()`.
Lowercasing a string is mapping `Char.toLower` over its characters (the
definition of `String.toLower`), expressed here on the character list so
that it evaluates by kernel reduction. -/
def is_gpt5_model (model_name : String) : Bool :=
  containsSeq "gpt-5".data (model_name.data.map Char.toLower)

/-- Model of the `model_settings_kwargs` dictionary built in `core.py`
lines 356-367 (and identically in `server.py` lines 340-351): at most one of
the two token fields is ever present. -/
structure ModelSettingsKwargs where
  max_tokens : Option Nat
  max_completion_tokens : Option Nat
deriving DecidableEq, Repr

/-- Embedding of `core.py` lines 356-367: starting from an empty kwargs dict,
set `max_completion_tokens` for GPT-5 models, `max_tokens` otherwise, and
nothing when no limit is given. -/
def buildTokenSettings (model_name : String) (max_tokens : Option Nat) :
    ModelSettingsKwargs :=
  match max_tokens with
  | none => ⟨none, none⟩
  | some t =>
    if is_gpt5_model model_name then ⟨none, some t⟩ else ⟨some t, none⟩

/-- Python truthiness of the kwargs dict (`core.py` line 375:
`ModelSettings(**model_settings_kwargs) if model_settings_kwargs else None`). -/
def ModelSettingsKwargs.isEmptyDict (k : ModelSettingsKwargs) : Bool :=
  k.max_tokens.isNone && k.max_completion_tokens.isNone

/-! ## Path resolution (`core.py` lines 97-154, `_resolve_path_with_fallback`)

A filesystem is abstracted as an existence predicate on absolute canonical
paths, where an absolute path is its list of components from the root.
Inputs are assumed free of `~`, `.` and `..`, and symlink-free, so
`Path.resolve()` of `cwd / rel` is modelled as list concatenation. -/

/-- Abstract filesystem: which absolute canonical paths exist. -/
structure FS where
  pathExists : List String → Bool

/-- A `pathlib.Path` input: absolute flag plus its components (`Path.parts`,
with the root component dropped for absolute paths). -/
structure PyPath where
  absolute : Bool
  parts : List String
deriving DecidableEq, Repr

/-- Rendering of the original reference string (`image_path` as passed in). -/
def renderRef (p : PyPath) : String :=
  (if p.absolute then "/" else "") ++ String.intercalate "/" p.parts

/-- Rendering of an absolute candidate path for error messages. -/
def renderAbs (p : List String) : String :=
  "/" ++ String.intercalate "/" p

/-- Embedding of `_resolve_path_with_fallback` (`core.py` lines 97-154):
absolute paths pass through; otherwise attempt `cwd / ref`, then, when the
reference has more than one component, `cwd / ref[1:]`; on failure raise
`FileNotFoundError` with a message naming the reference and each attempt. -/
def resolve_path_with_fallback (fs : FS) (cwd : List String) (p : PyPath) :
    Except String (List String) :=
  if p.absolute then .ok p.parts
  else
    let first_attempt := cwd ++ p.parts
    if fs.pathExists first_attempt then .ok first_attempt
    else
      if p.parts.length > 1 then
        let second_attempt := cwd ++ p.parts.tail
        if fs.pathExists second_attempt then .ok second_attempt
        else
          .error ("Image not found at path: " ++ renderRef p ++ ". Tried: "
            ++ renderAbs first_attempt ++ " and " ++ renderAbs second_attempt
            ++ ". Please check that the file exists and the path is correct.")
      else
        .error ("Image not found at path: " ++ renderRef p ++ ". Tried: "
          ++ renderAbs first_attempt
          ++ ". Please check that the file exists and the path is correct.")

/-! ## Schema compilation (`core.py` lines 380-408) -/

/-- Caller-supplied JSON schema, modelled by the keys the code reads:
`properties` maps a field name to the value of its `type` key (absent or
non-recognized values are `none`-like), `required` is the optional list of
mandatory field names, `type_key` stands for the customary top-level
`"type": "object"` entry (tracked only for dict truthiness). -/
structure Schema where
  type_key : Option String
  properties : Option (List (String × Option String))
  required : Option (List String)
deriving DecidableEq, Repr

/-- Python truthiness of the schema dict (`core.py` line 380 `if output_schema:`):
a dict is truthy when it has at least one key. -/
def Schema.truthy (s : Schema) : Bool :=
  s.type_key.isSome || s.properties.isSome || s.required.isSome

/-- Pydantic field base type chosen in `core.py` lines 388-398. -/
inductive PyType where
  | string
  | float
  | int
  | bool
  | list
  | dict
deriving DecidableEq, Repr

/-- Embedding of the if/elif chain at `core.py` lines 388-398:
`field_type = str` by default, replaced per recognized JSON type name. -/
def fieldTypeOf (t : Option String) : PyType :=
  if t == some "number" then .float
  else if t == some "integer" then .int
  else if t == some "boolean" then .bool
  else if t == some "array" then .list
  else if t == some "object" then .dict
  else .string

/-- The two tuple shapes stored in `fields` at `core.py` lines 401-405:
`(field_type, ...)` for required fields, `(field_type | None, None)` for
optional fields. -/
inductive FieldSpec where
  | mandatory (ty : PyType)
  | optionalNull (ty : PyType)
deriving DecidableEq, Repr

/-- Embedding of `core.py` lines 385-405: build the `fields` dict from
`output_schema["properties"]` and `output_schema.get("required", [])`. -/
def compileFields (s : Schema) : List (String × FieldSpec) :=
  match s.properties with
  | none => []
  | some props =>
    props.map (fun fd =>
      (fd.1,
        if (s.required.getD []).contains fd.1 then
          FieldSpec.mandatory (fieldTypeOf fd.2)
        else
          FieldSpec.optionalNull (fieldTypeOf fd.2)))

/-! ## Python dictionaries and exceptions -/

/-- Values stored in the response dictionaries. Structured model output
(a Pydantic object or its `model_dump()`) is opaque and carried by an
identifier; the nested `usage` dict maps token-count names to numbers. -/
inductive PyVal where
  | str (s : String)
  | nat (n : Nat)
  | bool (b : Bool)
  | data (id_ : Nat)
  | dictNat (entries : List (String × Nat))
deriving DecidableEq, Repr

/-- A Python dict as an insertion-ordered association list (all dicts built
by the embedded code have pairwise distinct keys). -/
abbrev PyDict := List (String × PyVal)

/-- Key membership in a dict. -/
def hasKey (d : PyDict) (k : String) : Bool :=
  d.any (fun kv => kv.1 == k)

/-- A raised Python exception as observed by a handler: its class name
(`type(e).__name__`), its message (`str(e)`), and the rendering of
`traceback.format_exc()` at the catch site. -/
structure PyExc where
  type_name : String
  msg : String
  tb : String
deriving DecidableEq, Repr

/-- Embedding of `_format_error` (`core.py` lines 27-48): always `error`,
`error_type` and `debug_mode`; `traceback` added only in debug mode. -/
def format_error (debug_mode : Bool) (e : PyExc) : PyDict :=
  [("error", .str e.msg), ("error_type", .str e.type_name),
   ("debug_mode", .bool debug_mode)]
  ++ (if debug_mode then [("traceback", .str e.tb)] else [])

/-! ## Environment and external-boundary oracles -/

/-- Process environment snapshot read by `core.py` lines 24 and 289-294:
each variable is `none` when unset. `debug_mode` is the decoded `MCP_DEBUG`
flag. -/
structure Env where
  model_var : Option String
  azure_endpoint : Option String
  azure_api_key : Option String
  mistral_deployment_var : Option String
  debug_mode : Bool
deriving Repr

/-- Model output produced by the agent boundary: free text or an opaque
structured record. -/
inductive ModelOutput where
  | text (s : String)
  | structured (id_ : Nat)
deriving DecidableEq, Repr

/-- Token counts optionally reported by the agent boundary
(`core.py` lines 442-449 probe each attribute separately). -/
structure Usage where
  prompt_tokens : Option Nat
  completion_tokens : Option Nat
  total_tokens : Option Nat
deriving DecidableEq, Repr

/-- Result of a successful `agent.run` call. -/
structure AgentResult where
  output : ModelOutput
  usage : Option Usage
deriving DecidableEq, Repr

/-- Value placed under the `data` / `analysis` key (`core.py` lines 426-439):
`model_dump()` of a structured record, or the raw text. -/
def outputVal : ModelOutput → PyVal
  | .text s => .str s
  | .structured i => .data i

/-- The `usage_dict` of `core.py` lines 443-449. -/
def usageDictOf (u : Usage) : List (String × Nat) :=
  (match u.prompt_tokens with | some n => [("prompt_tokens", n)] | none => [])
  ++ (match u.completion_tokens with
      | some n => [("completion_tokens", n)] | none => [])
  ++ (match u.total_tokens with | some n => [("total_tokens", n)] | none => [])

/-- Embedding of `core.py` lines 441-455: append the `usage` key only when a
usage object is present and its dict is non-empty. -/
def usagePart (uo : Option Usage) : PyDict :=
  match uo with
  | none => []
  | some u =>
    if (usageDictOf u).isEmpty then []
    else [("usage", PyVal.dictNat (usageDictOf u))]

/-- Outcome of processing a single image inside the OCR loop
(`core.py` lines 508-609), as decided by the external world:
an exception raised anywhere in the per-image `try` (URL validation,
path resolution, file reading, the HTTP call itself), a non-200 HTTP
response, an exception in the response-parsing block, or a parsed 200
response with the per-page `markdown` values. -/
inductive OcrOutcome where
  | exc (e : PyExc)
  | badStatus (status : Nat) (text : String)
  | parseExc (e : PyExc)
  | ok (pages : List String)
deriving Repr

/-- External world for one call: per-image preparation outcomes (indexed by
list position), the `agent.run` outcome given the agent configuration, and
per-image OCR outcomes. `prepare` is the outcome of the orchestrator module
`_prepare_image_for_pydantic` (`core.py` lines 187-246, with fallback path
resolution and SVG conversion); `server_prepare` is the outcome of the
distinct re-implementation of `_prepare_image_for_pydantic` in `server.py`
(lines 124-182, plain resolution, no fallback, no SVG branch) — the two are
different functions in the source and therefore different boundaries here.
`run` is shared: both modules build the agent and call `agent.run` the same
way. -/
structure Oracle where
  prepare : Nat → Except PyExc Unit
  server_prepare : Nat → Except PyExc Unit
  run : String → Option ModelSettingsKwargs → Option (List (String × FieldSpec)) →
    Except PyExc AgentResult
  ocr : Nat → OcrOutcome

/-! ## OCR aggregation (`core.py` lines 463-632, `_analyze_with_mistral`) -/

/-- One iteration of the OCR loop (`core.py` lines 508-609): every branch of
the Python loop body appends exactly one section string for the image. -/
def processOne (image_path : String) (o : OcrOutcome) : String :=
  match o with
  | .exc e => "=== " ++ image_path ++ " ===\n[Error: " ++ e.msg ++ "]"
  | .badStatus status text =>
    "=== " ++ image_path ++ " ===\n[Error: HTTP " ++ toString status ++ ": "
      ++ text ++ "]"
  | .parseExc e =>
    "=== " ++ image_path ++ " ===\n[Error extracting text: " ++ e.msg ++ "]"
  | .ok pages =>
    let page_texts := pages.filter (fun m => !m.isEmpty)
    let joined := String.intercalate "\n\n" page_texts
    let ocr_text :=
      if joined.isEmpty then "[No text extracted from " ++ image_path ++ "]"
      else joined
    "=== " ++ image_path ++ " ===\n" ++ ocr_text

/-- The `all_results` accumulation of the OCR loop, one section per input
image in input order (`i` is the list position of the first element). -/
def ocrLoop (outcomes : Nat → OcrOutcome) : Nat → List String → List String
  | _, [] => []
  | i, p :: rest => processOne p (outcomes i) :: ocrLoop outcomes (i + 1) rest

/-- Whitespace stripping from both ends of a character list; models the
Python `str.strip()` call (expressed on the character list so that it
evaluates by kernel reduction). -/
def stripChars (l : List Char) : List Char :=
  ((l.dropWhile Char.isWhitespace).reverse.dropWhile Char.isWhitespace).reverse

/-- Python truthiness of the prompt at `core.py` line 616
(`if prompt and prompt.strip():`). -/
def promptTruthy (prompt : String) : Bool :=
  !prompt.isEmpty && !(stripChars prompt.data).isEmpty

/-- Embedding of `_analyze_with_mistral` (`core.py` lines 463-632): check the
Azure configuration, process every image sequentially collecting one section
each, then combine the sections (with a `User request:` header when the
prompt is non-blank) or report `APIError` when no sections were collected. -/
def analyze_with_mistral (azure_endpoint azure_api_key : Option String)
    (deployment : String) (outcomes : Nat → OcrOutcome)
    (prompt : String) (image_paths : List String) : PyDict :=
  if !truthyOpt azure_endpoint || !truthyOpt azure_api_key then
    [("error", .str ("Azure configuration required for Mistral Document AI. "
        ++ "Please set AZURE_OPENAI_ENDPOINT and AZURE_OPENAI_API_KEY in .env file.")),
     ("error_type", .str "ConfigurationError")]
  else
    let all_results := ocrLoop outcomes 0 image_paths
    if all_results.isEmpty then
      [("error", .str "No results from Mistral Document AI"),
       ("error_type", .str "APIError")]
    else
      let combined_text := String.intercalate "\n\n" all_results
      let analysis :=
        if promptTruthy prompt then
          "User request: " ++ prompt ++ "\n\n" ++ combined_text
        else combined_text
      [("analysis", PyVal.str analysis),
       ("model", PyVal.str ("mistral:" ++ deployment))]

/-! ## The orchestrator (`core.py` lines 254-460, `analyze_images_impl`) -/

/-- The `image_paths` argument: a single string or a list of strings. -/
inductive ImagePathsArg where
  | str (s : String)
  | list (l : List String)
deriving Repr

/-- Normalization at `core.py` lines 304-305. -/
def normalizeImagePaths : ImagePathsArg → List String
  | .str s => [s]
  | .list l => l

/-- Python emptiness test of the prompt at `core.py` line 297
(`if not prompt or not prompt.strip():`). -/
def promptBlank (prompt : String) : Bool :=
  prompt.isEmpty || (stripChars prompt.data).isEmpty

/-- The `asyncio.gather` over `_prepare_image_for_pydantic` calls
(`core.py` lines 348-350): the whole gather fails with a raised exception
when any single preparation fails (modelled as the first failure in input
order), and succeeds otherwise. -/
def gatherPrepare (prep : Nat → Except PyExc Unit) (n : Nat) :
    Except PyExc Unit :=
  (List.range n).foldl (fun acc i => acc >>= fun _ => prep i) (Except.ok ())

/-- The agent output type passed at `core.py` lines 380-415:
`compileFields` of the schema when the schema dict is truthy, none otherwise. -/
def compiledOutputType (output_schema : Option Schema) :
    Option (List (String × FieldSpec)) :=
  match output_schema with
  | none => none
  | some s => if s.truthy then some (compileFields s) else none

/-- Truthiness of the `output_schema` parameter (`core.py` lines 380 and 426:
`if output_schema:`), false for `None` and for an empty dict. -/
def schemaTruthy : Option Schema → Bool
  | none => false
  | some s => s.truthy

/-- Python `a or b` on an optional string argument (`core.py` line 331:
`model or default_model`): `None` and the empty string fall back to `b`. -/
def pyOrStr (a : Option String) (b : String) : String :=
  match a with
  | some m => if m.isEmpty then b else m
  | none => b

/-- Embedding of `analyze_images_impl` (`core.py` lines 254-460). External
effects (image preparation, the agent call, OCR calls) are supplied by the
oracle; everything else follows the Python control flow line by line. -/
def analyze_images_impl (env : Env) (ora : Oracle) (prompt : String)
    (image_paths : ImagePathsArg) (model : Option String)
    (max_tokens : Option Nat) (reasoning_effort : String)
    (output_schema : Option Schema) (use_mistral : Bool) : PyDict :=
  let default_model := env.model_var.getD "azure:gpt-5.2"
  let mistral_deployment :=
    env.mistral_deployment_var.getD "mistral-document-ai-2505"
  if promptBlank prompt then
    [("error", .str ("Prompt cannot be empty. Please provide a question "
        ++ "or instruction for analyzing the image(s).")),
     ("error_type", .str "ValueError")]
  else
    let paths := normalizeImagePaths image_paths
    if paths.isEmpty then
      [("error", .str ("At least one image path is required. "
          ++ "Provide local file paths or URLs.")),
       ("error_type", .str "ValueError")]
    else if !(reasoning_effort == "low" || reasoning_effort == "medium"
        || reasoning_effort == "high") then
      [("error", .str ("Invalid reasoning_effort: " ++ reasoning_effort
          ++ ". Must be \x27low\x27, \x27medium\x27, or \x27high\x27.")),
       ("error_type", .str "ValueError")]
    else if use_mistral then
      analyze_with_mistral env.azure_endpoint env.azure_api_key
        mistral_deployment ora.ocr prompt paths
    else
      let model_name := pyOrStr model default_model
      if beginsWith "azure:".data model_name.data
          && (!truthyOpt env.azure_endpoint || !truthyOpt env.azure_api_key) then
        [("error", .str ("Azure OpenAI not configured. Please set "
            ++ "AZURE_OPENAI_ENDPOINT and AZURE_OPENAI_API_KEY in .env file "
            ++ "or use a different model provider "
            ++ "(e.g., \x27openai:gpt-4o\x27, \x27anthropic:claude-sonnet-4\x27).")),
         ("error_type", .str "ConfigurationError")]
      else
        match gatherPrepare ora.prepare paths.length with
        | .error e => format_error env.debug_mode e
        | .ok _ =>
          let kwargs := buildTokenSettings model_name max_tokens
          let model_settings :=
            if kwargs.isEmptyDict then none else some kwargs
          match ora.run model_name model_settings
              (compiledOutputType output_schema) with
          | .error e => format_error env.debug_mode e
          | .ok result =>
            let response :=
              if schemaTruthy output_schema then
                [("data", outputVal result.output),
                 ("model", PyVal.str model_name)]
              else
                [("analysis", outputVal result.output),
                 ("model", PyVal.str model_name)]
            response ++ usagePart result.usage

/-! ## The exposed tool (`server.py` lines 190-398, `analyze_images`) -/

/-- Embedding of the `@mcp.tool()` function `analyze_images` in `server.py`
(lines 190-398). It is translated independently of
`analyze_images_impl`: same validation chain and text-mode response
assembly, but with no `output_schema` or `use_mistral` parameter, no OCR
branch, an agent created without an output type, and image preparation
going through the distinct `server_prepare` boundary (`server.py` has its
own `_prepare_image_for_pydantic` without fallback resolution or SVG
conversion; see `server_resolve_local` below for its embedded resolution
step). Module-level configuration (`DEFAULT_MODEL`, the Azure variables,
`DEBUG_MODE`, `server.py` lines 26-43) reads the same environment
snapshot. -/
def analyze_images (env : Env) (ora : Oracle) (prompt : String)
    (image_paths : ImagePathsArg) (model : Option String)
    (max_tokens : Option Nat) (reasoning_effort : String) : PyDict :=
  let DEFAULT_MODEL := env.model_var.getD "azure:gpt-5.2"
  if promptBlank prompt then
    [("error", .str ("Prompt cannot be empty. Please provide a question "
        ++ "or instruction for analyzing the image(s).")),
     ("error_type", .str "ValueError")]
  else
    let paths := normalizeImagePaths image_paths
    if paths.isEmpty then
      [("error", .str ("At least one image path is required. "
          ++ "Provide local file paths or URLs.")),
       ("error_type", .str "ValueError")]
    else if !(reasoning_effort == "low" || reasoning_effort == "medium"
        || reasoning_effort == "high") then
      [("error", .str ("Invalid reasoning_effort: " ++ reasoning_effort
          ++ ". Must be \x27low\x27, \x27medium\x27, or \x27high\x27.")),
       ("error_type", .str "ValueError")]
    else
      let model_name := pyOrStr model DEFAULT_MODEL
      if beginsWith "azure:".data model_name.data
          && (!truthyOpt env.azure_endpoint || !truthyOpt env.azure_api_key) then
        [("error", .str ("Azure OpenAI not configured. Please set "
            ++ "AZURE_OPENAI_ENDPOINT and AZURE_OPENAI_API_KEY in .env file "
            ++ "or use a different model provider "
            ++ "(e.g., \x27openai:gpt-4o\x27, \x27anthropic:claude-sonnet-4\x27).")),
         ("error_type", .str "ConfigurationError")]
      else
        match gatherPrepare ora.server_prepare paths.length with
        | .error e => format_error env.debug_mode e
        | .ok _ =>
          let kwargs := buildTokenSettings model_name max_tokens
          let model_settings :=
            if kwargs.isEmptyDict then none else some kwargs
          match ora.run model_name model_settings none with
          | .error e => format_error env.debug_mode e
          | .ok result =>
            [("analysis", outputVal result.output),
             ("model", PyVal.str model_name)]
            ++ usagePart result.usage

/-- Embedding of the local-file resolution step inside the `server.py`
re-implementation of `_prepare_image_for_pydantic` (lines 139-147):
`Path(image_path).expanduser().resolve()` followed by a bare existence
check — no fallback attempt — raising `FileNotFoundError` with the
message of `server.py` lines 143-147 when the path does not exist. The
same path-modelling assumptions as for `resolve_path_with_fallback`
apply. -/
def server_resolve_local (fs : FS) (cwd : List String) (p : PyPath) :
    Except String (List String) :=
  let path := if p.absolute then p.parts else cwd ++ p.parts
  if fs.pathExists path then .ok path
  else
    .error ("Image not found at path: " ++ renderRef p
      ++ ". Please check that the file exists and the path is correct.")

/-- Parameter names of `analyze_images_impl` (`core.py` lines 254-262),
in declaration order. -/
def analyze_images_impl_params : List String :=
  ["prompt", "image_paths", "model", "max_tokens", "reasoning_effort",
   "output_schema", "use_mistral"]

/-- Parameter names of the exposed tool `analyze_images`
(`server.py` lines 191-197), in declaration order. -/
def analyze_images_params : List String :=
  ["prompt", "image_paths", "model", "max_tokens", "reasoning_effort"]

/-- Sample per-image OCR outcomes for concrete instantiations: image 1 (the
second of three) hits a failing HTTP response, the others succeed. -/
def sampleOcrOutcomes : Nat → OcrOutcome := fun i =>
  if i == 1 then OcrOutcome.badStatus 500 "upstream error"
  else OcrOutcome.ok ["page text"]

/-- Sample environment for concrete instantiations: Azure endpoint and key
configured, debug mode off, remaining variables unset. -/
def sampleEnv : Env :=
  { model_var := none
    azure_endpoint := some "https://res.cognitiveservices.azure.com"
    azure_api_key := some "test-key"
    mistral_deployment_var := none
    debug_mode := false }

/-- Sample external world for concrete instantiations: every preparation
succeeds and the agent returns a plain text answer without usage counts. -/
def sampleOracle : Oracle :=
  { prepare := fun _ => Except.ok ()
    server_prepare := fun _ => Except.ok ()
    run := fun _ _ _ => Except.ok { output := ModelOutput.text "A swan.", usage := none }
    ocr := fun _ => OcrOutcome.ok ["page text"] }

/-- Sample valid output schema (the shape used by the repository tests):
an object with one string property and no required list. -/
def sampleSchema : Schema :=
  { type_key := some "object"
    properties := some [("description", some "string")]
    required := none }

/-! ## Theorems -/

/-- C1: for every relative reference with at least two path components, when
the file does not exist at `cwd / ref` but does exist at `cwd` with the first
component of `ref` dropped, resolution returns the (canonicalized) second
candidate. -/
theorem c1_fallback_correctness (fs : FS) (cwd parts : List String)
    (h2 : 2 ≤ parts.length)
    (hA : fs.pathExists (cwd ++ parts) = false)
    (hB : fs.pathExists (cwd ++ parts.tail) = true) :
    resolve_path_with_fallback fs cwd ⟨false, parts⟩ =
      .ok (cwd ++ parts.tail) := by
  have h1 : parts.length > 1 := by omega
  simp [resolve_path_with_fallback, hA, hB, h1]

/-- Witness for C1: with working directory `/home/w` and a file only at
`/home/w/b/c`, resolving `a/b/c` returns `/home/w/b/c`. -/
theorem c1_fallback_correctness_witness :
    2 ≤ (["a", "b", "c"] : List String).length ∧
    resolve_path_with_fallback ⟨fun q => q == ["home", "w", "b", "c"]⟩
      ["home", "w"] ⟨false, ["a", "b", "c"]⟩ = .ok ["home", "w", "b", "c"] :=
  ⟨by decide,
   c1_fallback_correctness ⟨fun q => q == ["home", "w", "b", "c"]⟩ ["home", "w"]
     ["a", "b", "c"] (by decide) (by decide) (by decide)⟩

/-- C9: when no resolution attempt exists, the resolver fails with a
`FileNotFoundError` message naming the original reference and every
attempted absolute path: both attempts for a multi-component reference, and
exactly the single attempt (with no mention of a second candidate) for a
single-component reference. -/
theorem c9_notfound_diagnostics (fs : FS) (cwd parts : List String)
    (hA : fs.pathExists (cwd ++ parts) = false) :
    (1 < parts.length → fs.pathExists (cwd ++ parts.tail) = false →
      resolve_path_with_fallback fs cwd ⟨false, parts⟩ =
        .error ("Image not found at path: " ++ renderRef ⟨false, parts⟩
          ++ ". Tried: " ++ renderAbs (cwd ++ parts)
          ++ " and " ++ renderAbs (cwd ++ parts.tail)
          ++ ". Please check that the file exists and the path is correct."))
    ∧ (parts.length = 1 →
      resolve_path_with_fallback fs cwd ⟨false, parts⟩ =
        .error ("Image not found at path: " ++ renderRef ⟨false, parts⟩
          ++ ". Tried: " ++ renderAbs (cwd ++ parts)
          ++ ". Please check that the file exists and the path is correct.")) := by
  constructor
  · intro h1 hB
    simp [resolve_path_with_fallback, hA, hB, h1]
  · intro h1
    have hn : ¬ parts.length > 1 := by omega
    simp [resolve_path_with_fallback, hA, hn]

/-- Witness for C9 at concrete inputs under an existing working directory
`/home/w` holding no matching file: the multi-component reference `a/b/c`
reports both attempted paths, the single-component reference `x.jpg`
reports only the one attempted path. -/
theorem c9_notfound_diagnostics_witness :
    (resolve_path_with_fallback ⟨fun q => q == ["home", "w"]⟩ ["home", "w"]
        ⟨false, ["a", "b", "c"]⟩ =
      .error ("Image not found at path: " ++ renderRef ⟨false, ["a", "b", "c"]⟩
        ++ ". Tried: " ++ renderAbs (["home", "w"] ++ ["a", "b", "c"])
        ++ " and " ++ renderAbs (["home", "w"] ++ ["b", "c"])
        ++ ". Please check that the file exists and the path is correct."))
    ∧ (resolve_path_with_fallback ⟨fun q => q == ["home", "w"]⟩ ["home", "w"]
        ⟨false, ["x.jpg"]⟩ =
      .error ("Image not found at path: " ++ renderRef ⟨false, ["x.jpg"]⟩
        ++ ". Tried: " ++ renderAbs (["home", "w"] ++ ["x.jpg"])
        ++ ". Please check that the file exists and the path is correct.")) :=
  ⟨(c9_notfound_diagnostics ⟨fun q => q == ["home", "w"]⟩ ["home", "w"]
      ["a", "b", "c"] (by decide)).1 (by decide) (by decide),
   (c9_notfound_diagnostics ⟨fun q => q == ["home", "w"]⟩ ["home", "w"]
      ["x.jpg"] (by decide)).2 rfl⟩

/-- C6: a given token limit is emitted as `max_completion_tokens` exactly when
the model name contains `gpt-5` case-insensitively, as `max_tokens` otherwise,
and no token field is emitted when no limit is given. -/
theorem c6_token_parameter_routing (model_name : String) (limit : Nat) :
    (containsSeq "gpt-5".data (model_name.data.map Char.toLower) = true →
      buildTokenSettings model_name (some limit) =
        { max_tokens := none, max_completion_tokens := some limit })
    ∧ (containsSeq "gpt-5".data (model_name.data.map Char.toLower) = false →
      buildTokenSettings model_name (some limit) =
        { max_tokens := some limit, max_completion_tokens := none })
    ∧ buildTokenSettings model_name none =
        { max_tokens := none, max_completion_tokens := none } := by
  refine ⟨fun h => ?_, fun h => ?_, rfl⟩ <;>
    simp [buildTokenSettings, is_gpt5_model, h]

/-- Witness for C6: a GPT-5 model name (in different case) routes 500 to
`max_completion_tokens` only; a non-GPT-5 name routes it to `max_tokens`
only. -/
theorem c6_token_parameter_routing_witness :
    buildTokenSettings "azure:GPT-5.2" (some 500) =
      { max_tokens := none, max_completion_tokens := some 500 } ∧
    buildTokenSettings "openai:gpt-4o" (some 500) =
      { max_tokens := some 500, max_completion_tokens := none } :=
  ⟨(c6_token_parameter_routing "azure:GPT-5.2" 500).1 (by decide),
   (c6_token_parameter_routing "openai:gpt-4o" 500).2.1 (by decide)⟩

/-- C8: each field under `properties` is mapped by its JSON type name
(`number` to float, `integer` to int, `boolean` to bool, `array` to list,
`object` to dict), anything else defaults to string; a field listed in
`required` becomes mandatory with no default, all others optional with a
null default. -/
theorem c8_schema_compilation (tk : Option String)
    (props : List (String × Option String)) (req : Option (List String)) :
    compileFields ⟨tk, some props, req⟩ =
      props.map (fun fd =>
        (fd.1,
          let kind :=
            match fd.2 with
            | some "number" => PyType.float
            | some "integer" => PyType.int
            | some "boolean" => PyType.bool
            | some "array" => PyType.list
            | some "object" => PyType.dict
            | _ => PyType.string
          if fd.1 ∈ req.getD [] then FieldSpec.mandatory kind
          else FieldSpec.optionalNull kind)) := by
  unfold compileFields
  apply List.map_congr_left
  intro fd _
  have hkind :
      fieldTypeOf fd.2 =
        match fd.2 with
        | some "number" => PyType.float
        | some "integer" => PyType.int
        | some "boolean" => PyType.bool
        | some "array" => PyType.list
        | some "object" => PyType.dict
        | _ => PyType.string := by
    unfold fieldTypeOf
    rcases fd.2 with - | t
    · rfl
    · by_cases h1 : t = "number"
      · simp [h1]
      · by_cases h2 : t = "integer"
        · simp [h1, h2]
        · by_cases h3 : t = "boolean"
          · simp [h1, h2, h3]
          · by_cases h4 : t = "array"
            · simp [h1, h2, h3, h4]
            · by_cases h5 : t = "object"
              · simp [h1, h2, h3, h4, h5]
              · simp [h1, h2, h3, h4, h5]
  rw [hkind]
  by_cases hr : fd.1 ∈ req.getD []
  · have hc : (req.getD []).contains fd.1 = true := by
      simpa [List.contains] using List.elem_iff.mpr hr
    simp [hc, hr]
  · have hc : (req.getD []).contains fd.1 = false := by
      rw [Bool.eq_false_iff]
      intro hcon
      exact hr (List.elem_iff.mp (by simpa [List.contains] using hcon))
    simp [hc, hr]

/-- The OCR loop visits the input list in order, producing exactly one section
per input image, each depending only on that image and its own outcome. -/
theorem ocrLoop_eq_enumFrom_map (outcomes : Nat → OcrOutcome) :
    ∀ (i : Nat) (paths : List String),
      ocrLoop outcomes i paths =
        (List.enumFrom i paths).map (fun q => processOne q.2 (outcomes q.1))
  | _, [] => rfl
  | i, p :: rest => by
    simp [ocrLoop, List.enumFrom, ocrLoop_eq_enumFrom_map outcomes (i + 1) rest]

/-- C2: in OCR mode with endpoint configuration present, a failure while
processing one image is recorded inline and never aborts the batch: the
combined analysis is the blank-line join of exactly one labeled
`=== <reference> ===` section per input reference, in input order, each
produced from the outcome of that reference alone, with failing outcomes yielding
inline error markers. -/
theorem c2_ocr_partial_failure_isolation (endpoint key : Option String)
    (deployment : String) (outcomes : Nat → OcrOutcome) (prompt : String)
    (paths : List String) (hne : paths ≠ [])
    (hep : truthyOpt endpoint = true) (hk : truthyOpt key = true) :
    (analyze_with_mistral endpoint key deployment outcomes prompt paths =
      [("analysis", PyVal.str
          (if promptTruthy prompt then
            "User request: " ++ prompt ++ "\n\n" ++ String.intercalate "\n\n"
              (paths.enum.map (fun q => processOne q.2 (outcomes q.1)))
          else
            String.intercalate "\n\n"
              (paths.enum.map (fun q => processOne q.2 (outcomes q.1))))),
       ("model", PyVal.str ("mistral:" ++ deployment))])
    ∧ (paths.enum.map (fun q => processOne q.2 (outcomes q.1))).length
        = paths.length
    ∧ (∀ q ∈ paths.enum, ∀ e, outcomes q.1 = OcrOutcome.exc e →
        processOne q.2 (outcomes q.1) =
          "=== " ++ q.2 ++ " ===\n[Error: " ++ e.msg ++ "]")
    ∧ (∀ q ∈ paths.enum, ∀ status text,
        outcomes q.1 = OcrOutcome.badStatus status text →
        processOne q.2 (outcomes q.1) =
          "=== " ++ q.2 ++ " ===\n[Error: HTTP " ++ toString status ++ ": "
            ++ text ++ "]") := by
  refine ⟨?_, ?_, ?_, ?_⟩
  · cases paths with
    | nil => exact absurd rfl hne
    | cons p rest =>
      rw [analyze_with_mistral, ocrLoop_eq_enumFrom_map]
      simp only [hep, hk, Bool.not_true, Bool.or_self, Bool.false_eq_true,
        if_false, List.enum]
      rw [if_neg (by simp [List.enumFrom])]
  · simp
  · intro q _ e hq
    simp [processOne, hq]
  · intro q _ status text hq
    simp [processOne, hq]

/-- Witness for C2 at the concrete scenario from the spec: three references where
the second fails with an OCR-call failure. -/
theorem c2_ocr_partial_failure_isolation_witness :
    analyze_with_mistral (some "https://res.services.ai.azure.com") (some "k")
      "mistral-document-ai-2505" sampleOcrOutcomes "Read these"
      ["a.png", "b.png", "c.png"] =
      [("analysis", PyVal.str
          (if promptTruthy "Read these" then
            "User request: " ++ "Read these" ++ "\n\n" ++ String.intercalate "\n\n"
              ((["a.png", "b.png", "c.png"] : List String).enum.map
                (fun q => processOne q.2 (sampleOcrOutcomes q.1)))
          else
            String.intercalate "\n\n"
              ((["a.png", "b.png", "c.png"] : List String).enum.map
                (fun q => processOne q.2 (sampleOcrOutcomes q.1))))),
       ("model", PyVal.str ("mistral:" ++ "mistral-document-ai-2505"))] :=
  (c2_ocr_partial_failure_isolation (some "https://res.services.ai.azure.com")
    (some "k") "mistral-document-ai-2505" sampleOcrOutcomes "Read these"
    ["a.png", "b.png", "c.png"] (by decide) rfl rfl).1

/-- C10: with a non-empty reference list and endpoint configuration present,
every loop iteration contributes exactly one section, so the collected
result list is non-empty, the final `No results` `APIError` branch is
unreachable, and the OCR path returns an analysis envelope. -/
theorem c10_ocr_nonempty_always_analysis (endpoint key : Option String)
    (deployment : String) (outcomes : Nat → OcrOutcome) (prompt : String)
    (paths : List String) (hne : paths ≠ [])
    (hep : truthyOpt endpoint = true) (hk : truthyOpt key = true) :
    (ocrLoop outcomes 0 paths).length = paths.length
    ∧ hasKey (analyze_with_mistral endpoint key deployment outcomes prompt paths)
        "analysis" = true
    ∧ hasKey (analyze_with_mistral endpoint key deployment outcomes prompt paths)
        "error" = false := by
  have hlen : ∀ (i : Nat) (l : List String),
      (ocrLoop outcomes i l).length = l.length := by
    intro i l
    rw [ocrLoop_eq_enumFrom_map]
    simp
  refine ⟨hlen 0 paths, ?_, ?_⟩ <;>
  · cases paths with
    | nil => exact absurd rfl hne
    | cons p rest =>
      rw [analyze_with_mistral]
      simp only [hep, hk, Bool.not_true, Bool.or_self, Bool.false_eq_true,
        if_false]
      rw [if_neg (by simp [ocrLoop])]
      simp [hasKey]

/-- Witness for C10: a single failing reference still produces an analysis
envelope, not an error envelope. -/
theorem c10_ocr_nonempty_always_analysis_witness :
    hasKey (analyze_with_mistral (some "https://res.services.ai.azure.com")
      (some "k") "mistral-document-ai-2505" sampleOcrOutcomes ""
      ["only.png"]) "analysis" = true
    ∧ hasKey (analyze_with_mistral (some "https://res.services.ai.azure.com")
      (some "k") "mistral-document-ai-2505" sampleOcrOutcomes ""
      ["only.png"]) "error" = false :=
  ⟨(c10_ocr_nonempty_always_analysis (some "https://res.services.ai.azure.com")
      (some "k") "mistral-document-ai-2505" sampleOcrOutcomes ""
      ["only.png"] (by decide) rfl rfl).2.1,
   (c10_ocr_nonempty_always_analysis (some "https://res.services.ai.azure.com")
      (some "k") "mistral-document-ai-2505" sampleOcrOutcomes ""
      ["only.png"] (by decide) rfl rfl).2.2⟩

/-- C5: the orchestrator validates the prompt first, then the normalized
image list, then `reasoning_effort`; the first failing check returns
immediately with its `ValueError` envelope, regardless of every later
argument and of the external world. -/
theorem c5_validation_ordering (env : Env) (ora : Oracle) (prompt : String)
    (image_paths : ImagePathsArg) (model : Option String)
    (max_tokens : Option Nat) (reasoning_effort : String)
    (output_schema : Option Schema) (use_mistral : Bool) :
    (promptBlank prompt = true →
      analyze_images_impl env ora prompt image_paths model max_tokens
        reasoning_effort output_schema use_mistral =
        [("error", PyVal.str ("Prompt cannot be empty. Please provide a question "
            ++ "or instruction for analyzing the image(s).")),
         ("error_type", PyVal.str "ValueError")])
    ∧ (promptBlank prompt = false → normalizeImagePaths image_paths = [] →
      analyze_images_impl env ora prompt image_paths model max_tokens
        reasoning_effort output_schema use_mistral =
        [("error", PyVal.str ("At least one image path is required. "
            ++ "Provide local file paths or URLs.")),
         ("error_type", PyVal.str "ValueError")])
    ∧ (promptBlank prompt = false → normalizeImagePaths image_paths ≠ [] →
      (reasoning_effort == "low" || reasoning_effort == "medium"
        || reasoning_effort == "high") = false →
      analyze_images_impl env ora prompt image_paths model max_tokens
        reasoning_effort output_schema use_mistral =
        [("error", PyVal.str ("Invalid reasoning_effort: " ++ reasoning_effort
            ++ ". Must be \x27low\x27, \x27medium\x27, or \x27high\x27.")),
         ("error_type", PyVal.str "ValueError")]) := by
  refine ⟨fun h1 => ?_, fun h1 h2 => ?_, fun h1 h2 h3 => ?_⟩
  · simp [analyze_images_impl, h1]
  · simp [analyze_images_impl, h1, h2]
  · have h2e : (normalizeImagePaths image_paths).isEmpty = false := by
      cases hnp : normalizeImagePaths image_paths with
      | nil => exact absurd hnp h2
      | cons a l => rfl
    simp [analyze_images_impl, h1, h2e, h3]

/-- Witness for C5: an empty prompt together with an empty image list yields
the prompt-empty error (not the image-list error); a nonblank prompt with an
empty list yields the image-list error; and a nonblank prompt with a
non-empty list and an invalid effort yields the reasoning-effort error. -/
theorem c5_validation_ordering_witness :
    (analyze_images_impl sampleEnv sampleOracle "" (ImagePathsArg.list [])
        none none "high" none false =
      [("error", PyVal.str ("Prompt cannot be empty. Please provide a question "
          ++ "or instruction for analyzing the image(s).")),
       ("error_type", PyVal.str "ValueError")])
    ∧ (analyze_images_impl sampleEnv sampleOracle "Describe"
        (ImagePathsArg.list []) none none "high" none false =
      [("error", PyVal.str ("At least one image path is required. "
          ++ "Provide local file paths or URLs.")),
       ("error_type", PyVal.str "ValueError")])
    ∧ (analyze_images_impl sampleEnv sampleOracle "Describe"
        (ImagePathsArg.str "test.jpg") none none "extreme" none false =
      [("error", PyVal.str ("Invalid reasoning_effort: " ++ "extreme"
          ++ ". Must be \x27low\x27, \x27medium\x27, or \x27high\x27.")),
       ("error_type", PyVal.str "ValueError")]) :=
  ⟨(c5_validation_ordering sampleEnv sampleOracle "" (ImagePathsArg.list [])
      none none "high" none false).1 rfl,
   (c5_validation_ordering sampleEnv sampleOracle "Describe"
      (ImagePathsArg.list []) none none "high" none false).2.1 (by decide) rfl,
   (c5_validation_ordering sampleEnv sampleOracle "Describe"
      (ImagePathsArg.str "test.jpg") none none "extreme" none false).2.2
      (by decide) (by decide) (by decide)⟩

/-- Key membership distributes over dict concatenation. -/
theorem hasKey_append (d1 d2 : PyDict) (k : String) :
    hasKey (d1 ++ d2) k = (hasKey d1 k || hasKey d2 k) := by
  simp [hasKey]

/-- The optional `usage` entry introduces no key other than `usage`. -/
theorem hasKey_usagePart (uo : Option Usage) (k : String)
    (h : ("usage" == k) = false) : hasKey (usagePart uo) k = false := by
  cases uo with
  | none => rfl
  | some u =>
    show hasKey (if (usageDictOf u).isEmpty then []
      else [("usage", PyVal.dictNat (usageDictOf u))]) k = false
    cases hie : (usageDictOf u).isEmpty with
    | true => rfl
    | false => simp [hasKey, h]

/-- Shape of every `_format_error` envelope: `error`, `error_type` and
`debug_mode` always present, `traceback` present exactly in debug mode. -/
theorem format_error_shape (debug : Bool) (e : PyExc) :
    hasKey (format_error debug e) "error" = true
    ∧ hasKey (format_error debug e) "error_type" = true
    ∧ hasKey (format_error debug e) "debug_mode" = true
    ∧ (hasKey (format_error debug e) "traceback" = true ↔ debug = true) := by
  cases debug <;> simp [format_error, hasKey]

/-- Every result of the OCR path is a bare two-key error envelope or a bare
analysis envelope. -/
theorem mistral_result_cases (ep key : Option String) (dep : String)
    (outcomes : Nat → OcrOutcome) (prompt : String) (paths : List String) :
    (∃ msg ty, analyze_with_mistral ep key dep outcomes prompt paths =
        [("error", PyVal.str msg), ("error_type", PyVal.str ty)])
    ∨ (∃ a m, analyze_with_mistral ep key dep outcomes prompt paths =
        [("analysis", PyVal.str a), ("model", PyVal.str m)]) := by
  unfold analyze_with_mistral
  dsimp only
  split
  · exact Or.inl ⟨_, _, rfl⟩
  · split
    · exact Or.inl ⟨_, _, rfl⟩
    · split
      · exact Or.inr ⟨_, _, rfl⟩
      · exact Or.inr ⟨_, _, rfl⟩

/-- Every result of the orchestrator is a bare two-key error envelope, a
`_format_error` envelope, or a success envelope (`analysis` or `data`, plus
`model` and the optional `usage`). -/
theorem impl_result_cases (env : Env) (ora : Oracle) (prompt : String)
    (ip : ImagePathsArg) (model : Option String) (mt : Option Nat)
    (re : String) (os : Option Schema) (um : Bool) :
    (∃ msg ty, analyze_images_impl env ora prompt ip model mt re os um =
        [("error", PyVal.str msg), ("error_type", PyVal.str ty)])
    ∨ (∃ e, analyze_images_impl env ora prompt ip model mt re os um =
        format_error env.debug_mode e)
    ∨ (∃ k v m uo, (k = "analysis" ∨ k = "data")
        ∧ analyze_images_impl env ora prompt ip model mt re os um =
          [(k, v), ("model", PyVal.str m)] ++ usagePart uo) := by
  unfold analyze_images_impl
  dsimp only
  split
  · exact Or.inl ⟨_, _, rfl⟩
  split
  · exact Or.inl ⟨_, _, rfl⟩
  split
  · exact Or.inl ⟨_, _, rfl⟩
  split
  · rcases mistral_result_cases env.azure_endpoint env.azure_api_key
        (env.mistral_deployment_var.getD "mistral-document-ai-2505") ora.ocr
        prompt (normalizeImagePaths ip) with ⟨msg, ty, h⟩ | ⟨a, m, h⟩
    · exact Or.inl ⟨msg, ty, h⟩
    · refine Or.inr (Or.inr ⟨"analysis", PyVal.str a, m, none, Or.inl rfl, ?_⟩)
      simpa using h
  split
  · exact Or.inl ⟨_, _, rfl⟩
  split
  · exact Or.inr (Or.inl ⟨_, rfl⟩)
  split
  · exact Or.inr (Or.inl ⟨_, rfl⟩)
  split
  · exact Or.inr (Or.inr ⟨"data", _, _, _, Or.inr rfl, rfl⟩)
  · exact Or.inr (Or.inr ⟨"analysis", _, _, _, Or.inl rfl, rfl⟩)

/-- Counterexample to C3 as stated: an empty prompt produces a failure
envelope from the orchestrator that has no `debug_mode` field. -/
theorem c3_counterexample :
    hasKey (analyze_images_impl sampleEnv sampleOracle ""
      (ImagePathsArg.str "test.jpg") none none "high" none false) "error" = true
    ∧ hasKey (analyze_images_impl sampleEnv sampleOracle ""
      (ImagePathsArg.str "test.jpg") none none "high" none false)
        "debug_mode" = false := by
  constructor <;> rfl

/-- C3 (amended): every failure envelope returned by the orchestrator has
`error` and `error_type`; envelopes produced through the exception formatter
also carry `debug_mode` and carry `traceback` exactly when debug mode is
enabled, while early validation/configuration failures carry neither
`debug_mode` nor `traceback`. -/
theorem c3_error_envelope_shape (env : Env) (ora : Oracle) (prompt : String)
    (ip : ImagePathsArg) (model : Option String) (mt : Option Nat)
    (re : String) (os : Option Schema) (um : Bool)
    (herr : hasKey (analyze_images_impl env ora prompt ip model mt re os um)
      "error" = true) :
    hasKey (analyze_images_impl env ora prompt ip model mt re os um)
      "error_type" = true
    ∧ (hasKey (analyze_images_impl env ora prompt ip model mt re os um)
        "debug_mode" = true →
      (hasKey (analyze_images_impl env ora prompt ip model mt re os um)
        "traceback" = true ↔ env.debug_mode = true))
    ∧ (hasKey (analyze_images_impl env ora prompt ip model mt re os um)
        "debug_mode" = false →
      hasKey (analyze_images_impl env ora prompt ip model mt re os um)
        "traceback" = false) := by
  rcases impl_result_cases env ora prompt ip model mt re os um with
    ⟨msg, ty, h⟩ | ⟨e, h⟩ | ⟨k, v, m, uo, hk, h⟩
  · rw [h]
    rw [h] at herr
    refine ⟨rfl, fun hdm => absurd hdm (by simp [hasKey]), fun _ => rfl⟩
  · rw [h]
    obtain ⟨-, h2, h3, h4⟩ := format_error_shape env.debug_mode e
    exact ⟨h2, fun _ => h4, fun hdm => absurd h3 (by simp [hdm])⟩
  · exfalso
    rw [h, hasKey_append, hasKey_usagePart uo "error" rfl] at herr
    rcases hk with hk | hk <;> subst hk <;> simp [hasKey] at herr

/-- Witness for C3 (amended) at a concrete failing call: the empty-prompt
failure carries `error_type` and no `traceback`. -/
theorem c3_error_envelope_shape_witness :
    hasKey (analyze_images_impl sampleEnv sampleOracle ""
      (ImagePathsArg.str "test.jpg") none none "high" none false)
      "error_type" = true
    ∧ hasKey (analyze_images_impl sampleEnv sampleOracle ""
      (ImagePathsArg.str "test.jpg") none none "high" none false)
      "traceback" = false :=
  ⟨(c3_error_envelope_shape sampleEnv sampleOracle ""
      (ImagePathsArg.str "test.jpg") none none "high" none false rfl).1,
   (c3_error_envelope_shape sampleEnv sampleOracle ""
      (ImagePathsArg.str "test.jpg") none none "high" none false rfl).2.2 rfl⟩

/-- In the standard (non-OCR) path, the first key of a success envelope is `data`
exactly when the schema argument is truthy, `analysis` otherwise. -/
theorem impl_success_key (env : Env) (ora : Oracle) (prompt : String)
    (ip : ImagePathsArg) (model : Option String) (mt : Option Nat)
    (re : String) (os : Option Schema) :
    (∃ msg ty, analyze_images_impl env ora prompt ip model mt re os false =
        [("error", PyVal.str msg), ("error_type", PyVal.str ty)])
    ∨ (∃ e, analyze_images_impl env ora prompt ip model mt re os false =
        format_error env.debug_mode e)
    ∨ (∃ v m uo, analyze_images_impl env ora prompt ip model mt re os false =
        [((if schemaTruthy os then "data" else "analysis"), v),
         ("model", PyVal.str m)] ++ usagePart uo) := by
  unfold analyze_images_impl
  dsimp only
  split
  · exact Or.inl ⟨_, _, rfl⟩
  split
  · exact Or.inl ⟨_, _, rfl⟩
  split
  · exact Or.inl ⟨_, _, rfl⟩
  split
  next hm => exact absurd hm (by simp)
  split
  · exact Or.inl ⟨_, _, rfl⟩
  split
  · exact Or.inr (Or.inl ⟨_, rfl⟩)
  split
  · exact Or.inr (Or.inl ⟨_, rfl⟩)
  rename_i result heq
  split
  next hst =>
    exact Or.inr (Or.inr ⟨outputVal result.output,
      pyOrStr model (env.model_var.getD "azure:gpt-5.2"), result.usage, rfl⟩)
  next hst =>
    exact Or.inr (Or.inr ⟨outputVal result.output,
      pyOrStr model (env.model_var.getD "azure:gpt-5.2"), result.usage, rfl⟩)

/-- Counterexample to C7 as stated: a successful request carrying a valid
`output_schema` but routed through the OCR path (`use_mistral=true`) yields
an `analysis` key. -/
theorem c7_counterexample :
    hasKey (analyze_images_impl sampleEnv sampleOracle "Describe"
      (ImagePathsArg.str "test.jpg") none none "high" (some sampleSchema) true)
      "error" = false
    ∧ hasKey (analyze_images_impl sampleEnv sampleOracle "Describe"
      (ImagePathsArg.str "test.jpg") none none "high" (some sampleSchema) true)
      "analysis" = true := by
  constructor <;> rfl

/-- C7 (amended): for every successful request through the standard
(non-OCR) path, a valid `output_schema` yields a `data` key and never an
`analysis` key, and the absence of `output_schema` yields an `analysis` key
and never a `data` key. -/
theorem c7_result_shape_exclusivity (env : Env) (ora : Oracle) (prompt : String)
    (ip : ImagePathsArg) (model : Option String) (mt : Option Nat) (re : String)
    (s : Schema) (hs : s.properties.isSome = true) :
    (hasKey (analyze_images_impl env ora prompt ip model mt re (some s) false)
        "error" = false →
      hasKey (analyze_images_impl env ora prompt ip model mt re (some s) false)
        "data" = true
      ∧ hasKey (analyze_images_impl env ora prompt ip model mt re (some s) false)
        "analysis" = false)
    ∧ (hasKey (analyze_images_impl env ora prompt ip model mt re none false)
        "error" = false →
      hasKey (analyze_images_impl env ora prompt ip model mt re none false)
        "analysis" = true
      ∧ hasKey (analyze_images_impl env ora prompt ip model mt re none false)
        "data" = false) := by
  constructor
  · intro hsucc
    rcases impl_success_key env ora prompt ip model mt re (some s) with
      ⟨msg, ty, h⟩ | ⟨e, h⟩ | ⟨v, m, uo, h⟩
    · rw [h] at hsucc
      simp [hasKey] at hsucc
    · rw [h, (format_error_shape env.debug_mode e).1] at hsucc
      cases hsucc
    · have hst : schemaTruthy (some s) = true := by
        simp [schemaTruthy, Schema.truthy, hs]
      rw [if_pos hst] at h
      rw [h]
      constructor
      · rw [hasKey_append, hasKey_usagePart uo "data" rfl]
        simp [hasKey]
      · rw [hasKey_append, hasKey_usagePart uo "analysis" rfl]
        simp [hasKey]
  · intro hsucc
    rcases impl_success_key env ora prompt ip model mt re none with
      ⟨msg, ty, h⟩ | ⟨e, h⟩ | ⟨v, m, uo, h⟩
    · rw [h] at hsucc
      simp [hasKey] at hsucc
    · rw [h, (format_error_shape env.debug_mode e).1] at hsucc
      cases hsucc
    · have hst : schemaTruthy none = false := rfl
      rw [if_neg (by simp [hst])] at h
      rw [h]
      constructor
      · rw [hasKey_append, hasKey_usagePart uo "analysis" rfl]
        simp [hasKey]
      · rw [hasKey_append, hasKey_usagePart uo "data" rfl]
        simp [hasKey]

/-- Witness for C7 (amended) at concrete successful calls: with the sample
schema the standard path returns a `data` envelope, without it an `analysis`
envelope. -/
theorem c7_result_shape_exclusivity_witness :
    hasKey (analyze_images_impl sampleEnv sampleOracle "Describe"
      (ImagePathsArg.str "test.jpg") none none "high" (some sampleSchema) false)
      "data" = true
    ∧ hasKey (analyze_images_impl sampleEnv sampleOracle "Describe"
      (ImagePathsArg.str "test.jpg") none none "high" none false)
      "analysis" = true :=
  ⟨((c7_result_shape_exclusivity sampleEnv sampleOracle "Describe"
      (ImagePathsArg.str "test.jpg") none none "high" sampleSchema rfl).1 rfl).1,
   ((c7_result_shape_exclusivity sampleEnv sampleOracle "Describe"
      (ImagePathsArg.str "test.jpg") none none "high" sampleSchema rfl).2 rfl).1⟩

/-- C4: the exposed tool `analyze_images` does not accept the
`output_schema` and `use_mistral` parameters that the orchestrator
`analyze_images_impl` accepts, and it is not equivalent to the orchestrator
on the shared parameters either: evaluated at the failing input
`someproject/pic.jpeg` under working directory `/home/w` with the file only
at `/home/w/pic.jpeg`, the resolution step used by the orchestrator
(`_resolve_path_with_fallback`) succeeds via the fallback attempt, while
the resolution step re-implemented inside the tool module
(the `server.py` variant of `_prepare_image_for_pydantic`) fails with its
own `FileNotFoundError`. -/
theorem c4_tool_surface :
    ("output_schema" ∈ analyze_images_impl_params
      ∧ "use_mistral" ∈ analyze_images_impl_params
      ∧ "output_schema" ∉ analyze_images_params
      ∧ "use_mistral" ∉ analyze_images_params)
    ∧ resolve_path_with_fallback ⟨fun q => q == ["home", "w", "pic.jpeg"]⟩
        ["home", "w"] ⟨false, ["someproject", "pic.jpeg"]⟩ =
        .ok ["home", "w", "pic.jpeg"]
    ∧ server_resolve_local ⟨fun q => q == ["home", "w", "pic.jpeg"]⟩
        ["home", "w"] ⟨false, ["someproject", "pic.jpeg"]⟩ =
        .error ("Image not found at path: "
          ++ renderRef ⟨false, ["someproject", "pic.jpeg"]⟩
          ++ ". Please check that the file exists and the path is correct.") := by
  refine ⟨by decide, ?_, ?_⟩ <;> rfl
